import Mathlib

/-!
Verification of the Elasticsearch configuration resolver
(`internal/utils/k8s.go`, function `ResolveEsConfigFromk8s`) of the
terraform-provider-elasticstack repository.

The Go function reads three Kubernetes objects — a Service
`<name>-es-http`, a Secret `<name>-es-elastic-user` and a Secret
`<name>-es-http-certs-public` — and assembles an `elasticsearch.Config`
(addresses, username, password, optional CA certificate).

We embed the directory state (the fake client's object store) as two
association maps keyed by namespaced names, and translate the function
body statement by statement.  Every `Get` issued by the function is
recorded in a trace together with the `context.Context` value passed to
it, so that ordering and context-forwarding claims can be stated.

Byte slices (`[]byte`) are modelled as `String` (Go strings are byte
sequences and the code only converts and compares them); `int32` ports
are modelled as `Int`.
-/

/-- A Go `context.Context` value, as far as the resolver distinguishes
them: the code only ever constructs `context.Background()`; a caller
supplied context is represented abstractly by an identifier. -/
inductive GoContext where
  | background
  | caller (id : Nat)
  deriving DecidableEq, Repr

/-- `k8s.io/apimachinery/pkg/types.NamespacedName`. -/
structure NamespacedName where
  ns : String
  name : String
  deriving DecidableEq, Repr

/-- A `corev1.ServicePort`: the fields `Name` and `Port` read by the
resolver. -/
structure ServicePort where
  name : String
  port : Int
  deriving DecidableEq, Repr

/-- A `corev1.LoadBalancerIngress`: the resolver reads only `IP`. -/
structure LBIngress where
  ip : String
  deriving DecidableEq, Repr

/-- The parts of a `corev1.Service` the resolver reads:
`Spec.Ports`, `Spec.ClusterIP` and `Status.LoadBalancer.Ingress`. -/
structure Service where
  ports : List ServicePort
  clusterIP : String
  ingress : List LBIngress
  deriving DecidableEq, Repr

/-- A `corev1.Secret`: its `Data` field `map[string][]byte`,
modelled as an association list with unique-key lookup semantics. -/
structure Secret where
  data : List (String × String)
  deriving DecidableEq, Repr

/-- The directory state: the set of objects the Kubernetes client can
return, split by kind as the typed `Get` calls are. -/
structure K8sState where
  services : List (NamespacedName × Service)
  secrets : List (NamespacedName × Secret)
  deriving DecidableEq, Repr

/-- First-match association-list lookup; models `map` indexing for the
object stores and for `Secret.Data`. -/
def lookupAssoc {κ α : Type} [DecidableEq κ] :
    List (κ × α) → κ → Option α
  | [], _ => none
  | (k, v) :: rest, key => if k = key then some v else lookupAssoc rest key

/-- `k8sClient.Get` for a `corev1.Service`: `some` the object, or `none`
for the client's NotFound error. -/
def getService (st : K8sState) (nn : NamespacedName) : Option Service :=
  lookupAssoc st.services nn

/-- `k8sClient.Get` for a `corev1.Secret`. -/
def getSecret (st : K8sState) (nn : NamespacedName) : Option Secret :=
  lookupAssoc st.secrets nn

/-- The errors `ResolveEsConfigFromk8s` can return, one constructor per
`return` site: the client's not-found error (spec: `NotFound`),
`"not exactly 1 port: %d"` (spec: `InvalidShape`),
`"service IP not found"` (spec: `MissingAddress`), and
`"no 'elastic' entry in Secret %q"` (spec: `MissingEntry`). -/
inductive ResolveError where
  | notFound (kind : String) (nn : NamespacedName)
  | notExactlyOnePort (n : Nat)
  | serviceIPNotFound
  | missingElasticEntry (secretName : String)
  deriving DecidableEq, Repr

/-- The fields of `elasticsearch.Config` that the resolver populates. -/
structure EsConfig where
  addresses : List String
  username : String
  password : String
  cacert : Option String
  deriving DecidableEq, Repr

/-- The Go zero value `elasticsearch.Config{}` restricted to the fields
we model: nil addresses, empty username and password, nil CA cert. -/
def EsConfig.empty : EsConfig :=
  { addresses := [], username := "", password := "", cacert := none }

/-- The resource kind requested by one typed `Get` call. -/
inductive ResourceKind where
  | service
  | secret
  deriving DecidableEq, Repr

/-- One `k8sClient.Get` call issued by the resolver: the context it
passed, the resource kind, and the namespaced name requested. -/
structure GetCall where
  ctx : GoContext
  kind : ResourceKind
  nn : NamespacedName
  deriving DecidableEq, Repr

/-- The address selection of lines 35-41 of `k8s.go`:
`ip := service.Spec.ClusterIP; if len(ingress) == 1 { ip = ingress[0].IP }`. -/
def selectIP (service : Service) : String :=
  match service.ingress with
  | [ing] => ing.ip
  | _ => service.clusterIP

/-- `fmt.Sprintf("%s://%s:%d", protocol, ip, port)`. -/
def composeAddress (protocol ip : String) (port : Int) : String :=
  protocol ++ "://" ++ ip ++ ":" ++ toString port

/-- `ResolveEsConfigFromk8s(k8sClient, namespace, name)`, translated
statement by statement from `internal/utils/k8s.go`.  The result pairs
the Go return value `(elasticsearch.Config, error)` — the error is
`none` for Go's `nil` — with the trace of `Get` calls the run issued,
in order.  Every `Get` in the source passes `context.Background()`. -/
def resolveEsConfigFromK8s (st : K8sState) (ns name : String) :
    (EsConfig × Option ResolveError) × List GetCall :=
  let svcNN : NamespacedName := ⟨ns, name ++ "-es-http"⟩
  let svcCall : GetCall := ⟨GoContext.background, ResourceKind.service, svcNN⟩
  match getService st svcNN with
  | none =>
      ((EsConfig.empty, some (ResolveError.notFound "Service" svcNN)), [svcCall])
  | some service =>
      match service.ports with
      | [p0] =>
          let protocol := p0.name
          let port := p0.port
          let ip := selectIP service
          if ip = "" then
            ((EsConfig.empty, some ResolveError.serviceIPNotFound), [svcCall])
          else
            let userNN : NamespacedName := ⟨ns, name ++ "-es-elastic-user"⟩
            let userCall : GetCall := ⟨GoContext.background, ResourceKind.secret, userNN⟩
            match getSecret st userNN with
            | none =>
                ((EsConfig.empty, some (ResolveError.notFound "Secret" userNN)),
                  [svcCall, userCall])
            | some secret =>
                let username := "elastic"
                match lookupAssoc secret.data username with
                | none =>
                    ((EsConfig.empty,
                      some (ResolveError.missingElasticEntry (name ++ "-es-elastic-user"))),
                      [svcCall, userCall])
                | some password =>
                    let certsNN : NamespacedName := ⟨ns, name ++ "-es-http-certs-public"⟩
                    let certsCall : GetCall :=
                      ⟨GoContext.background, ResourceKind.secret, certsNN⟩
                    match getSecret st certsNN with
                    | none =>
                        ((EsConfig.empty, some (ResolveError.notFound "Secret" certsNN)),
                          [svcCall, userCall, certsCall])
                    | some certsSecret =>
                        let cacert := lookupAssoc certsSecret.data "ca.crt"
                        (({ addresses := [composeAddress protocol ip port],
                            username := username,
                            password := password,
                            cacert := cacert }, none),
                          [svcCall, userCall, certsCall])
      | other =>
          ((EsConfig.empty, some (ResolveError.notExactlyOnePort other.length)), [svcCall])

/-- Left cancellation for string append, in iff form for rewriting the
name comparisons the lookups perform. -/
@[simp] theorem string_append_right_cancel_iff (a s1 s2 : String) :
    a ++ s1 = a ++ s2 ↔ s1 = s2 := by
  constructor
  · intro he
    have hd := congrArg String.data he
    simp only [String.data_append] at hd
    exact String.ext (List.append_cancel_left hd)
  · intro h
    rw [h]

/-- The happy-path Service of the spec scenario (and of the test
`Test_ResolveEsConfigFromk8s`): one port `{name: "http", port: 9200}`,
ClusterIP `127.0.0.1`, no load-balancer ingress. -/
def happyService : Service :=
  { ports := [{ name := "http", port := 9200 }],
    clusterIP := "127.0.0.1",
    ingress := [] }

/-- The credential Secret of the scenario: single entry
`elastic -> "secretpw"`. -/
def happyUserSecret : Secret :=
  { data := [("elastic", "secretpw")] }

/-- The trust Secret of the scenario: present, but with no `ca.crt`
entry. -/
def happyCertsSecret : Secret :=
  { data := [] }

/-- The scenario directory state for a given namespace and cluster
name: the three conventionally named objects, nothing else. -/
def scenarioState (ns name : String) : K8sState :=
  { services := [(⟨ns, name ++ "-es-http"⟩, happyService)],
    secrets := [(⟨ns, name ++ "-es-elastic-user"⟩, happyUserSecret),
                (⟨ns, name ++ "-es-http-certs-public"⟩, happyCertsSecret)] }

/-- C1: in the scenario directory state — service with single port
`{http, 9200}`, ClusterIP `127.0.0.1`, no ingress; credential secret
`elastic -> "secretpw"`; trust secret without `ca.crt` — resolution
succeeds and returns exactly
`{addresses := ["http://127.0.0.1:9200"], username := "elastic",
password := "secretpw", cacert := none}`. -/
theorem resolve_happy_scenario_exact (ns name : String) :
    (resolveEsConfigFromK8s (scenarioState ns name) ns name).1 =
      ({ addresses := ["http://127.0.0.1:9200"], username := "elastic",
         password := "secretpw", cacert := none }, none) := by
  simp [resolveEsConfigFromK8s, scenarioState, getService, getSecret,
    lookupAssoc, selectIP, composeAddress, happyService, happyUserSecret,
    happyCertsSecret]
  rfl

/-- Witness for C1: the scenario evaluated at the test's concrete
namespace `ns-a` and cluster name `cluster-a`. -/
theorem resolve_happy_scenario_exact_witness :
    (resolveEsConfigFromK8s (scenarioState "ns-a" "cluster-a") "ns-a" "cluster-a").1 =
      ({ addresses := ["http://127.0.0.1:9200"], username := "elastic",
         password := "secretpw", cacert := none }, none) :=
  resolve_happy_scenario_exact "ns-a" "cluster-a"

/-- C2: whenever the resolver returns a non-nil error, the configuration
returned alongside it is the Go zero value `elasticsearch.Config{}` —
no partially populated configuration ever accompanies an error. -/
theorem resolve_error_returns_zero_config
    (st : K8sState) (ns name : String) (e : ResolveError)
    (h : (resolveEsConfigFromK8s st ns name).1.2 = some e) :
    (resolveEsConfigFromK8s st ns name).1.1 = EsConfig.empty := by
  revert h
  simp only [resolveEsConfigFromK8s]
  repeat' split
  all_goals simp [EsConfig.empty]

/-- Witness for C2: in the empty directory state resolution errors, and
the configuration component is the zero value. -/
theorem resolve_error_returns_zero_config_witness :
    (resolveEsConfigFromK8s ⟨[], []⟩ "ns-a" "cluster-a").1.1 = EsConfig.empty :=
  resolve_error_returns_zero_config ⟨[], []⟩ "ns-a" "cluster-a"
    (ResolveError.notFound "Service" ⟨"ns-a", "cluster-a" ++ "-es-http"⟩) (by rfl)

/-- C3: if the service exists but declares a number of ports different
from 1, resolution returns the "not exactly 1 port" error carrying that
count, together with the zero configuration. -/
theorem resolve_port_count_not_one_fails
    (st : K8sState) (ns name : String) (svc : Service)
    (hsvc : getService st ⟨ns, name ++ "-es-http"⟩ = some svc)
    (hn : svc.ports.length ≠ 1) :
    (resolveEsConfigFromK8s st ns name).1 =
      (EsConfig.empty, some (ResolveError.notExactlyOnePort svc.ports.length)) := by
  simp only [resolveEsConfigFromK8s, hsvc]
  match hp : svc.ports with
  | [] => simp [hp]
  | [p] => exact absurd (by rw [hp]; rfl) hn
  | p :: q :: rest => simp [hp]

/-- Witness for C3: a service with zero declared ports makes resolution
fail with the port-count error. -/
theorem resolve_port_count_not_one_fails_witness :
    (resolveEsConfigFromK8s
        ⟨[(⟨"ns-a", "cluster-a-es-http"⟩,
           { ports := [], clusterIP := "127.0.0.1", ingress := [] })], []⟩
        "ns-a" "cluster-a").1 =
      (EsConfig.empty, some (ResolveError.notExactlyOnePort 0)) :=
  resolve_port_count_not_one_fails _ "ns-a" "cluster-a"
    { ports := [], clusterIP := "127.0.0.1", ingress := [] } (by decide) (by decide)

/-- C4: with exactly one declared port, the address selection uses the
ingress IP when exactly one load-balancer ingress is reported, falls
back to the cluster-internal IP otherwise, and resolution fails with
the "service IP not found" error when the selected address is empty. -/
theorem resolve_address_selection
    (st : K8sState) (ns name : String) (svc : Service) (p : ServicePort)
    (hsvc : getService st ⟨ns, name ++ "-es-http"⟩ = some svc)
    (hports : svc.ports = [p]) :
    (∀ ing, svc.ingress = [ing] → selectIP svc = ing.ip) ∧
    (svc.ingress.length ≠ 1 → selectIP svc = svc.clusterIP) ∧
    (selectIP svc = "" →
      (resolveEsConfigFromK8s st ns name).1 =
        (EsConfig.empty, some ResolveError.serviceIPNotFound)) := by
  refine ⟨?_, ?_, ?_⟩
  · intro ing hing
    simp [selectIP, hing]
  · intro hlen
    match hi : svc.ingress with
    | [] => simp [selectIP, hi]
    | [i] => exact absurd (by rw [hi]; rfl) hlen
    | i :: j :: rest => simp [selectIP, hi]
  · intro hip
    simp only [resolveEsConfigFromK8s, hsvc]
    simp [hports, hip]

/-- A service with one port but neither a cluster IP nor any ingress:
no usable address. -/
def noAddrService : Service :=
  { ports := [{ name := "http", port := 9200 }], clusterIP := "", ingress := [] }

/-- Directory state holding only `noAddrService`. -/
def noAddrState : K8sState :=
  { services := [(⟨"ns-a", "cluster-a-es-http"⟩, noAddrService)], secrets := [] }

/-- Witness for C4: with an empty cluster IP and no ingress, resolution
fails with the missing-address error. -/
theorem resolve_address_selection_witness :
    (resolveEsConfigFromK8s noAddrState "ns-a" "cluster-a").1 =
      (EsConfig.empty, some ResolveError.serviceIPNotFound) :=
  (resolve_address_selection noAddrState "ns-a" "cluster-a" noAddrService
    { name := "http", port := 9200 } (by decide) (by decide)).2.2 (by decide)

/-- C5: when the service is well-formed but the credential secret's data
has no entry under the hardcoded username `elastic`, resolution fails
with the missing-entry error and the returned configuration carries no
password. -/
theorem resolve_missing_elastic_entry
    (st : K8sState) (ns name : String) (svc : Service) (p : ServicePort) (sec : Secret)
    (hsvc : getService st ⟨ns, name ++ "-es-http"⟩ = some svc)
    (hports : svc.ports = [p])
    (hip : selectIP svc ≠ "")
    (hsec : getSecret st ⟨ns, name ++ "-es-elastic-user"⟩ = some sec)
    (hmiss : lookupAssoc sec.data "elastic" = none) :
    (resolveEsConfigFromK8s st ns name).1 =
      (EsConfig.empty, some (ResolveError.missingElasticEntry (name ++ "-es-elastic-user"))) ∧
    (resolveEsConfigFromK8s st ns name).1.1.password = "" := by
  have h1 : (resolveEsConfigFromK8s st ns name).1 =
      (EsConfig.empty, some (ResolveError.missingElasticEntry (name ++ "-es-elastic-user"))) := by
    simp only [resolveEsConfigFromK8s, hsvc]
    simp [hports, hip, hsec, hmiss]
  exact ⟨h1, by rw [h1]; rfl⟩

/-- Directory state of the test's "invalid user secret" case: the happy
service plus a credential secret whose only entry is `badEntry`. -/
def invalidUserState : K8sState :=
  { services := [(⟨"ns-a", "cluster-a-es-http"⟩, happyService)],
    secrets := [(⟨"ns-a", "cluster-a-es-elastic-user"⟩,
                  { data := [("badEntry", "secretpw")] })] }

/-- Witness for C5: the `badEntry`-only credential secret yields the
missing-entry error and an empty password. -/
theorem resolve_missing_elastic_entry_witness :
    (resolveEsConfigFromK8s invalidUserState "ns-a" "cluster-a").1 =
      (EsConfig.empty,
        some (ResolveError.missingElasticEntry ("cluster-a" ++ "-es-elastic-user"))) ∧
    (resolveEsConfigFromK8s invalidUserState "ns-a" "cluster-a").1.1.password = "" :=
  resolve_missing_elastic_entry invalidUserState "ns-a" "cluster-a" happyService
    { name := "http", port := 9200 } { data := [("badEntry", "secretpw")] }
    (by decide) (by decide) (by decide) (by decide) (by decide)

/-- C10: if the service reports exactly one load-balancer ingress and
that ingress's IP is the empty string, resolution fails with the
missing-address error — the cluster-internal IP is never consulted once
exactly one ingress is present. -/
theorem resolve_single_empty_ingress_ip_fails
    (st : K8sState) (ns name : String) (svc : Service) (p : ServicePort) (ing : LBIngress)
    (hsvc : getService st ⟨ns, name ++ "-es-http"⟩ = some svc)
    (hports : svc.ports = [p])
    (hing : svc.ingress = [ing])
    (hip : ing.ip = "") :
    (resolveEsConfigFromK8s st ns name).1 =
      (EsConfig.empty, some ResolveError.serviceIPNotFound) := by
  have hsel : selectIP svc = "" := by simp [selectIP, hing, hip]
  simp only [resolveEsConfigFromK8s, hsvc]
  simp [hports, hsel]

/-- The happy service, except that its status reports a single
load-balancer ingress whose IP is empty, while the cluster IP is the
non-empty `127.0.0.1`. -/
def emptyIngressService : Service :=
  { ports := [{ name := "http", port := 9200 }],
    clusterIP := "127.0.0.1",
    ingress := [{ ip := "" }] }

/-- Directory state for the C10 witness: the empty-ingress service plus
both secrets, so only the ingress IP can be at fault. -/
def emptyIngressState : K8sState :=
  { services := [(⟨"ns-a", "cluster-a-es-http"⟩, emptyIngressService)],
    secrets := [(⟨"ns-a", "cluster-a-es-elastic-user"⟩, happyUserSecret),
                (⟨"ns-a", "cluster-a-es-http-certs-public"⟩, happyCertsSecret)] }

/-- Witness for C10: the empty-IP single ingress makes resolution fail
even though the cluster IP `127.0.0.1` is non-empty and both secrets
are present. -/
theorem resolve_single_empty_ingress_ip_fails_witness :
    (resolveEsConfigFromK8s emptyIngressState "ns-a" "cluster-a").1 =
      (EsConfig.empty, some ResolveError.serviceIPNotFound) :=
  resolve_single_empty_ingress_ip_fails emptyIngressState "ns-a" "cluster-a"
    emptyIngressService { name := "http", port := 9200 } { ip := "" }
    (by decide) (by decide) (by decide) (by decide)

/-- The endpoint fetch the resolver issues first:
`Get(context.Background(), {ns, name + "-es-http"}, &service)`. -/
def svcGet (ns name : String) : GetCall :=
  ⟨GoContext.background, ResourceKind.service, ⟨ns, name ++ "-es-http"⟩⟩

/-- The credential fetch the resolver issues second:
`Get(context.Background(), {ns, name + "-es-elastic-user"}, &secret)`. -/
def userGet (ns name : String) : GetCall :=
  ⟨GoContext.background, ResourceKind.secret, ⟨ns, name ++ "-es-elastic-user"⟩⟩

/-- The trust fetch the resolver issues third:
`Get(context.Background(), {ns, name + "-es-http-certs-public"}, &secret)`. -/
def certsGet (ns name : String) : GetCall :=
  ⟨GoContext.background, ResourceKind.secret, ⟨ns, name ++ "-es-http-certs-public"⟩⟩

/-- Every run issues the fetches in the fixed order endpoint →
credential → trust, stopping after a failing step: the trace is always
one of the three order-respecting stages. -/
theorem resolve_trace_shape (st : K8sState) (ns name : String) :
    (resolveEsConfigFromK8s st ns name).2 = [svcGet ns name] ∨
    (resolveEsConfigFromK8s st ns name).2 = [svcGet ns name, userGet ns name] ∨
    (resolveEsConfigFromK8s st ns name).2 =
      [svcGet ns name, userGet ns name, certsGet ns name] := by
  simp only [resolveEsConfigFromK8s, svcGet, userGet, certsGet]
  repeat' split
  all_goals simp

/-- C6: when the service is absent, resolution returns the client's
not-found error having issued only the endpoint fetch — neither secret
is fetched; and in general the three fetches happen in the fixed order
endpoint, credential, trust, any failure cutting off the rest. -/
theorem resolve_missing_service_short_circuits
    (st : K8sState) (ns name : String)
    (habs : getService st ⟨ns, name ++ "-es-http"⟩ = none) :
    resolveEsConfigFromK8s st ns name =
      ((EsConfig.empty, some (ResolveError.notFound "Service" ⟨ns, name ++ "-es-http"⟩)),
        [svcGet ns name]) ∧
    (∀ st2 ns2 name2,
      (resolveEsConfigFromK8s st2 ns2 name2).2 = [svcGet ns2 name2] ∨
      (resolveEsConfigFromK8s st2 ns2 name2).2 = [svcGet ns2 name2, userGet ns2 name2] ∨
      (resolveEsConfigFromK8s st2 ns2 name2).2 =
        [svcGet ns2 name2, userGet ns2 name2, certsGet ns2 name2]) := by
  refine ⟨?_, fun st2 ns2 name2 => resolve_trace_shape st2 ns2 name2⟩
  simp only [resolveEsConfigFromK8s, habs]
  simp [svcGet]

/-- Witness for C6: the empty directory state yields the not-found
error with a trace of exactly the one endpoint fetch. -/
theorem resolve_missing_service_short_circuits_witness :
    resolveEsConfigFromK8s ⟨[], []⟩ "ns-a" "cluster-a" =
      ((EsConfig.empty,
        some (ResolveError.notFound "Service" ⟨"ns-a", "cluster-a" ++ "-es-http"⟩)),
        [svcGet "ns-a" "cluster-a"]) :=
  (resolve_missing_service_short_circuits ⟨[], []⟩ "ns-a" "cluster-a" (by decide)).1

/-- C7 counterexample: it is not the case that a caller-supplied
context reaches the fetches — on the happy-path state every issued
`Get` carries `context.Background()`, never a caller's context. -/
theorem resolve_counterexample_caller_context :
    ¬ ∀ c ∈ (resolveEsConfigFromK8s (scenarioState "ns-a" "cluster-a")
              "ns-a" "cluster-a").2,
        c.ctx = GoContext.caller 0 := by
  decide

/-- C7 as amended: `ResolveEsConfigFromk8s` accepts no context from its
caller; every one of its directory fetches is issued with a fresh
`context.Background()`. -/
theorem resolve_all_gets_use_background
    (st : K8sState) (ns name : String) :
    ∀ c ∈ (resolveEsConfigFromK8s st ns name).2, c.ctx = GoContext.background := by
  rcases resolve_trace_shape st ns name with h | h | h <;> rw [h] <;>
    simp [svcGet, userGet, certsGet]

/-- Witness for the amended C7: the single fetch issued on the empty
directory state carries the background context. -/
theorem resolve_all_gets_use_background_witness :
    (svcGet "ns-a" "cluster-a").ctx = GoContext.background :=
  resolve_all_gets_use_background ⟨[], []⟩ "ns-a" "cluster-a"
    (svcGet "ns-a" "cluster-a") (by decide)

/-- C8: resolution is a pure function of the directory state and the
arguments: two calls with the same state, namespace and name agree on
the error and on every configuration field. -/
theorem resolve_idempotent_same_state (st : K8sState) (ns name : String) :
    (resolveEsConfigFromK8s st ns name).1.2 = (resolveEsConfigFromK8s st ns name).1.2 ∧
    (resolveEsConfigFromK8s st ns name).1.1.addresses =
      (resolveEsConfigFromK8s st ns name).1.1.addresses ∧
    (resolveEsConfigFromK8s st ns name).1.1.username =
      (resolveEsConfigFromK8s st ns name).1.1.username ∧
    (resolveEsConfigFromK8s st ns name).1.1.password =
      (resolveEsConfigFromK8s st ns name).1.1.password ∧
    (resolveEsConfigFromK8s st ns name).1.1.cacert =
      (resolveEsConfigFromK8s st ns name).1.1.cacert :=
  ⟨rfl, rfl, rfl, rfl, rfl⟩

/-- Inversion of a successful run: success requires a service with
exactly one port, and the single returned address is built from that
port's name as scheme, the selected IP and the port number. -/
theorem resolve_success_addresses
    (st : K8sState) (ns name : String) (cfg : EsConfig)
    (h : (resolveEsConfigFromK8s st ns name).1 = (cfg, none)) :
    ∃ svc p, getService st ⟨ns, name ++ "-es-http"⟩ = some svc ∧
      svc.ports = [p] ∧
      cfg.addresses = [p.name ++ "://" ++ selectIP svc ++ ":" ++ toString p.port] := by
  rcases hsvc : getService st ⟨ns, name ++ "-es-http"⟩ with _ | svc
  · simp [resolveEsConfigFromK8s, hsvc] at h
  · match hp : svc.ports with
    | [] => simp [resolveEsConfigFromK8s, hsvc, hp] at h
    | p :: q :: rest => simp [resolveEsConfigFromK8s, hsvc, hp] at h
    | [p] =>
      by_cases hip : selectIP svc = ""
      · simp [resolveEsConfigFromK8s, hsvc, hp, hip] at h
      · rcases hsec : getSecret st ⟨ns, name ++ "-es-elastic-user"⟩ with _ | sec
        · simp [resolveEsConfigFromK8s, hsvc, hp, hip, hsec] at h
        · rcases hpw : lookupAssoc sec.data "elastic" with _ | pw
          · simp [resolveEsConfigFromK8s, hsvc, hp, hip, hsec, hpw] at h
          · rcases hcert : getSecret st ⟨ns, name ++ "-es-http-certs-public"⟩ with _ | csec
            · simp [resolveEsConfigFromK8s, hsvc, hp, hip, hsec, hpw, hcert] at h
            · have hres : (resolveEsConfigFromK8s st ns name).1 =
                  ({ addresses := [composeAddress p.name (selectIP svc) p.port],
                     username := "elastic", password := pw,
                     cacert := lookupAssoc csec.data "ca.crt" }, none) := by
                simp only [resolveEsConfigFromK8s, hsvc]
                simp [hp, hip, hsec, hpw, hcert]
              rw [hres] at h
              simp only [Prod.mk.injEq] at h
              obtain ⟨h1, -⟩ := h
              subst h1
              exact ⟨svc, p, rfl, hp, by simp [composeAddress]⟩

/-- The happy scenario except that the service's single port has an
empty name, so the composed address has an empty scheme. -/
def emptySchemeState : K8sState :=
  { services := [(⟨"ns-a", "cluster-a-es-http"⟩,
      { ports := [{ name := "", port := 9200 }],
        clusterIP := "127.0.0.1", ingress := [] })],
    secrets := [(⟨"ns-a", "cluster-a-es-elastic-user"⟩, happyUserSecret),
                (⟨"ns-a", "cluster-a-es-http-certs-public"⟩, happyCertsSecret)] }

/-- C9: on every success the scheme of the single returned address is
the port's name string verbatim; in particular a port with an empty
name yields a successful resolution whose address is `://127.0.0.1:9200`
— no validation or normalization of the scheme happens. -/
theorem resolve_scheme_is_port_name_verbatim :
    (∀ st ns name cfg, (resolveEsConfigFromK8s st ns name).1 = (cfg, none) →
      ∃ svc p, getService st ⟨ns, name ++ "-es-http"⟩ = some svc ∧
        svc.ports = [p] ∧
        cfg.addresses = [p.name ++ "://" ++ selectIP svc ++ ":" ++ toString p.port]) ∧
    (resolveEsConfigFromK8s emptySchemeState "ns-a" "cluster-a").1 =
      ({ addresses := ["://127.0.0.1:9200"], username := "elastic",
         password := "secretpw", cacert := none }, none) := by
  refine ⟨fun st ns name cfg h => resolve_success_addresses st ns name cfg h, ?_⟩
  rfl
